import Mathlib

/-!
A shallow embedding of the LED-animation engine's core model:
`Segment` (src/src/models/segment.py), `Effect` (src/src/models/effect.py),
`Scene` (src/src/models/scene.py) and `SceneManager` together with its
pattern-transition state machine (src/src/core/scene_manager.py), plus the
RGB clamping step of the OSC palette handler (src/src/core/osc_handler.py).

Python floats are embedded as exact rationals (ℚ), Python ints as ℤ,
Python lists as Lean lists, and dicts as association lists in insertion
order.  Methods that mutate their object are embedded as functions
returning the updated value.
-/

/-- Python `int(x)` applied to an exact rational: truncation toward zero. -/
def pyInt (q : ℚ) : ℤ := if 0 ≤ q then ⌊q⌋ else -⌊-q⌋

/-- Python `max(0.0, min(1.0, x))`. -/
def clamp01 (q : ℚ) : ℚ := max 0 (min 1 q)

/-- Python `max(0, min(255, v))` on an integer channel. -/
def clamp255 (v : ℤ) : ℤ := max 0 (min 255 v)

/-- Python `a % m` on floats (result has the sign of the divisor). -/
def pymod (a m : ℚ) : ℚ := a - m * ⌊a / m⌋

/-- The `Segment` dataclass fields, in source order, with the source defaults. -/
structure Segment where
  segment_id : ℤ
  color : List ℤ := [0, 0, 0, 0]
  transparency : List ℚ := [1, 1, 1, 1]
  length : List ℤ := [10, 10, 10]
  move_speed : ℚ := 0
  move_range : List ℤ := [0, 224]
  initial_position : ℤ := 0
  current_position : ℚ := 0
  is_edge_reflect : Bool := true
  dimmer_time : List ℤ := [0, 100, 200, 100, 0]
  dimmer_time_ratio : ℚ := 1
  gradient : Bool := false
  fade : Bool := false
  gradient_colors : List ℤ := [0, -1, -1]
deriving Repr, DecidableEq

/-- Source `Segment.__post_init__`: runs on every construction of the dataclass.
The two `while` loops pad `transparency` (with 1.0) and `length` (with 1)
up to `len(color)`. -/
def Segment.post_init (s : Segment) : Segment :=
  let s := if s.current_position = 0 then
    { s with current_position := (s.initial_position : ℚ) } else s
  let s := if s.color = [] then { s with color := [0] } else s
  let s := if s.transparency = [] then
    { s with transparency := List.replicate s.color.length 1 } else s
  let s := if s.length = [] then
    { s with length := List.replicate s.color.length 1 } else s
  let s := { s with
    transparency := s.transparency ++
      List.replicate (s.color.length - s.transparency.length) 1 }
  { s with
    length := s.length ++ List.replicate (s.color.length - s.length.length) 1 }

/-- Source `Segment.from_dict` applied to a dictionary carrying exactly the given
field values: the dataclass constructor runs `__post_init__`, after which
`from_dict` re-applies the `current_position == 0.0` fix-up (a no-op after
`__post_init__`, but kept for faithfulness). -/
def Segment.from_dict_fields (s : Segment) : Segment :=
  let seg := s.post_init
  if seg.current_position = 0 then
    { seg with current_position := (seg.initial_position : ℚ) }
  else seg

/-- Source `Segment.update_position(delta_time)`. -/
def Segment.update_position (s : Segment) (delta_time : ℚ) : Segment :=
  if |s.move_speed| < 1/1000 then s
  else
    let pos := s.current_position + s.move_speed * delta_time
    if s.is_edge_reflect ∧ 2 ≤ s.move_range.length then
      let min_pos : ℚ := (s.move_range.getD 0 0 : ℤ)
      let max_pos : ℚ := (s.move_range.getD 1 0 : ℤ)
      if pos ≤ min_pos then
        { s with current_position := min_pos, move_speed := |s.move_speed| }
      else if pos ≥ max_pos then
        { s with current_position := max_pos, move_speed := -|s.move_speed| }
      else { s with current_position := pos }
    else if ¬s.is_edge_reflect ∧ 2 ≤ s.move_range.length then
      let min_pos : ℚ := (s.move_range.getD 0 0 : ℤ)
      let max_pos : ℚ := (s.move_range.getD 1 0 : ℤ)
      let range_size := max_pos - min_pos
      if 0 < range_size then
        { s with current_position := min_pos + pymod (pos - min_pos) range_size }
      else { s with current_position := pos }
    else { s with current_position := pos }

/-- Source `Segment._get_brightness_at_position(relative_pos, total_length)`. -/
def Segment.get_brightness_at_position (s : Segment) (relative_pos : ℕ)
    (total_length : ℤ) : ℚ :=
  if ¬s.fade ∨ s.dimmer_time = [] ∨ total_length ≤ 0 then 1
  else
    let dimmer_length := s.dimmer_time.length
    if dimmer_length ≤ 1 then (s.dimmer_time.getD 0 0 : ℚ) / 100
    else
      let progress := min 1 (max 0 ((relative_pos : ℚ) / (total_length : ℚ)))
      let dimmer_pos := progress * ((dimmer_length : ℚ) - 1)
      let index : ℤ := pyInt dimmer_pos
      let fraction := dimmer_pos - (index : ℚ)
      if (dimmer_length : ℤ) - 1 ≤ index then
        clamp01 ((s.dimmer_time.getLast?.getD 0 : ℚ) / 100)
      else
        let current_value := s.dimmer_time.getD index.toNat 0
        let next_value := s.dimmer_time.getD (index.toNat + 1) 0
        clamp01 (((current_value : ℚ) +
          ((next_value : ℚ) - (current_value : ℚ)) * fraction) / 100)

/-- Source `Segment._apply_gradient(gradient_factor, part_index)`. -/
def Segment.apply_gradient (s : Segment) (gradient_factor : ℚ) : ℚ :=
  if ¬s.gradient ∨ s.gradient_colors = [] then 1
  else if s.gradient_colors.length < 2 then 1
  else
    let g0 := s.gradient_colors.getD 0 0
    let g1 := s.gradient_colors.getD 1 0
    let start_brightness : ℚ := if 0 ≤ g0 then (g0 : ℚ) / 100 else 1
    let end_brightness : ℚ := if 0 ≤ g1 then (g1 : ℚ) / 100 else 1
    clamp01 (start_brightness +
      (end_brightness - start_brightness) * gradient_factor)

/-- Source `Segment._calculate_led_color(...)`. -/
def Segment.calculate_led_color (s : Segment) (color_index : ℤ)
    (transparency : ℚ) (current_led_index : ℕ) (total_length : ℤ)
    (palette : List (List ℤ)) (led_in_part part_length : ℕ) : List ℤ :=
  if ¬(0 ≤ color_index ∧ color_index < (palette.length : ℤ)) then [0, 0, 0]
  else
    let entry := palette.getD color_index.toNat []
    let base_color := if 3 ≤ entry.length then entry.take 3 else [0, 0, 0]
    let brightness : ℚ :=
      if s.fade ∧ 0 < total_length then
        s.get_brightness_at_position current_led_index total_length
      else 1
    let brightness : ℚ :=
      if s.gradient ∧ 1 < part_length then
        brightness * s.apply_gradient ((led_in_part : ℚ) / ((part_length : ℚ) - 1))
      else brightness
    let final_transparency := clamp01 transparency
    let final_brightness := clamp01 brightness
    base_color.map (fun c =>
      clamp255 (pyInt ((c : ℚ) * final_transparency * final_brightness)))

/-- Source `Segment._get_single_led_color(color_index_in_array, palette, led_position)`. -/
def Segment.get_single_led_color (s : Segment) (color_index_in_array : ℕ)
    (palette : List (List ℤ)) (led_position : ℕ) : List ℤ :=
  if s.color.length ≤ color_index_in_array then [0, 0, 0]
  else
    let color_index := s.color.getD color_index_in_array 0
    if ¬(0 ≤ color_index ∧ color_index < (palette.length : ℤ)) then [0, 0, 0]
    else
      let entry := palette.getD color_index.toNat []
      let base_color := if 3 ≤ entry.length then entry.take 3 else [0, 0, 0]
      let transparency : ℚ :=
        if color_index_in_array < s.transparency.length then
          s.transparency.getD color_index_in_array 1
        else 1
      let brightness : ℚ :=
        if s.fade then
          s.get_brightness_at_position led_position
            (max 1 ((led_position : ℤ) + 1))
        else 1
      base_color.map (fun c =>
        clamp255 (pyInt ((c : ℚ) * clamp01 transparency * clamp01 brightness)))

/-- The part loop of `Segment.get_led_colors`: iterates over the enumerated
`length` list (Python: `for part_index in range(len(self.length))`),
carrying the emitted colors and the running `current_led_index`. -/
def Segment.emit_parts (s : Segment) (palette : List (List ℤ))
    (total_length : ℤ) : List (ℕ × ℤ) → List (List ℤ) × ℕ → List (List ℤ) × ℕ
  | [], acc => acc
  | (part_index, l) :: rest, (colors, current_led_index) =>
    let part_length := (max 0 l).toNat
    if part_length = 0 then
      s.emit_parts palette total_length rest (colors, current_led_index)
    else
      let color_index :=
        if part_index < s.color.length then s.color.getD part_index 0 else 0
      let transparency :=
        if part_index < s.transparency.length then
          s.transparency.getD part_index 1
        else 1
      let block := (List.range part_length).map (fun led_in_part =>
        s.calculate_led_color color_index transparency
          (current_led_index + led_in_part) total_length palette
          led_in_part part_length)
      s.emit_parts palette total_length rest
        (colors ++ block, current_led_index + part_length)

/-- Source `Segment.get_led_colors(palette)`. -/
def Segment.get_led_colors (s : Segment) (palette : List (List ℤ)) :
    List (List ℤ) :=
  if s.color = [] ∨ palette = [] then []
  else
    let total_length : ℤ := (s.length.map (fun l => max 0 l)).sum
    if total_length = 0 then
      if s.length.length < s.color.length then
        (List.range s.color.length).map (fun i =>
          s.get_single_led_color i palette 0)
      else []
    else
      let res := s.emit_parts palette total_length s.length.enum ([], 0)
      if s.length.length < s.color.length then
        res.1 ++ (List.range (s.color.length - s.length.length)).map (fun k =>
          s.get_single_led_color (s.length.length + k) palette (res.2 + k))
      else res.1

/-- Source `Segment.get_total_led_count()`. -/
def Segment.get_total_led_count (s : Segment) : ℤ :=
  let total := (s.length.map (fun l => max 0 l)).sum
  let total := if s.length.length < s.color.length then
    total + ((s.color.length : ℤ) - (s.length.length : ℤ)) else total
  max 0 total

/-- The `Effect` dataclass (src/src/models/effect.py); `segments` is the dict's
value sequence in insertion order. -/
structure Effect where
  effect_id : ℤ
  led_count : ℤ := 225
  fps : ℤ := 60
  time : ℚ := 0
  current_palette : String := "A"
  segments : List Segment := []
deriving Repr, DecidableEq

/-- Channel-wise `out[j] = max(out[j], incoming[j])` for `j < 3`; both
arguments are always 3-channel lists in the composition loop. -/
def mergeMax3 (old incoming : List ℤ) : List ℤ := List.zipWith max old incoming

/-- One iteration of the inner loop of `Effect.get_led_output`: write
`color` into the frame at `led_index` by channel-wise maximum, dropping
indices outside `[0, led_count)`. -/
def writeMax (led_count : ℤ) (frame : List (List ℤ)) (led_index : ℤ)
    (color : List ℤ) : List (List ℤ) :=
  if 0 ≤ led_index ∧ led_index < led_count then
    frame.set led_index.toNat (mergeMax3 (frame.getD led_index.toNat []) color)
  else frame

/-- The per-segment body of `Effect.get_led_output`: composite one segment's
colors into the frame starting at `int(segment.current_position)`. -/
def applySegment (led_count : ℤ) (palette : List (List ℤ))
    (frame : List (List ℤ)) (seg : Segment) : List (List ℤ) :=
  let segment_colors := seg.get_led_colors palette
  let start_pos := pyInt seg.current_position
  segment_colors.enum.foldl
    (fun fr ic => writeMax led_count fr (start_pos + (ic.1 : ℤ)) ic.2) frame

/-- Source `Effect.get_led_output(palette)`. -/
def Effect.get_led_output (e : Effect) (palette : List (List ℤ)) :
    List (List ℤ) :=
  e.segments.foldl (applySegment e.led_count palette)
    (List.replicate e.led_count.toNat [0, 0, 0])

/-- The `Scene` dataclass (src/src/models/scene.py); `palettes` and `effects`
are dicts embedded as association lists (string keys, insertion order). -/
structure Scene where
  scene_id : ℤ
  current_effect_id : ℤ := 1
  current_palette : String := "A"
  palettes : List (String × List (List ℤ)) := []
  effects : List (String × Effect) := []
  fade_params : List ℤ := [100, 200, 100]
deriving Repr, DecidableEq

/-- Source `Scene.get_current_effect()`: `self.effects.get(str(self.current_effect_id))`. -/
def Scene.get_current_effect (s : Scene) : Option Effect :=
  s.effects.lookup (toString s.current_effect_id)

/-- Source `Scene.get_current_palette()`: defaults to six pure whites. -/
def Scene.get_current_palette (s : Scene) : List (List ℤ) :=
  (s.palettes.lookup s.current_palette).getD
    (List.replicate 6 [255, 255, 255])

/-- Source `Scene.switch_effect(effect_id, palette)`; `palette = none` embeds the
Python default argument `None`, and Python's truthiness test `if palette`
rejects the empty string as well. -/
def Scene.switch_effect (s : Scene) (effect_id : ℤ)
    (palette : Option String) : Scene :=
  let s := if (s.effects.lookup (toString effect_id)).isSome then
    { s with current_effect_id := effect_id } else s
  match palette with
  | some p =>
    if p ≠ "" ∧ (s.palettes.lookup p).isSome then
      { s with current_palette := p }
    else s
  | none => s

/-- Source `Scene.get_led_output()`. -/
def Scene.get_led_output (s : Scene) : List (List ℤ) :=
  match s.get_current_effect with
  | some current_effect => current_effect.get_led_output s.get_current_palette
  | none => List.replicate 225 [0, 0, 0]

/-- The `TransitionPhase` enum (src/src/core/scene_manager.py). -/
inductive TransitionPhase where
  | fade_out
  | waiting
  | fade_in
  | completed
deriving Repr, DecidableEq

/-- The `PatternTransition` dataclass.  The four id fields default to `None` in
Python but are always assigned by `start_pattern_transition` before any
other transition code reads them; they are embedded at their value types. -/
structure PatternTransition where
  is_active : Bool := false
  phase : TransitionPhase := .completed
  from_effect_id : ℤ := 0
  from_palette_id : String := ""
  to_effect_id : ℤ := 0
  to_palette_id : String := ""
  start_time : ℚ := 0
  fade_in_ms : ℤ := 100
  fade_out_ms : ℤ := 100
  waiting_ms : ℤ := 50
  phase_start_time : ℚ := 0
  progress : ℚ := 0
deriving Repr, DecidableEq

/-- The `PatternTransitionConfig` dataclass. -/
structure PatternTransitionConfig where
  fade_in_ms : ℤ := 100
  fade_out_ms : ℤ := 100
  waiting_ms : ℤ := 50
deriving Repr, DecidableEq

/-- Update every binding of key `k` in an association list (a Python dict
has unique keys, so this is the dict's point update). -/
def updAssoc {κ ν : Type} [BEq κ] (k : κ) (f : ν → ν) :
    List (κ × ν) → List (κ × ν)
  | [] => []
  | (k', v') :: rest =>
    if k' == k then (k', f v') :: updAssoc k f rest
    else (k', v') :: updAssoc k f rest

/-- The `SceneManager` state: the scene table, the active id, the transition
machinery, and the relevant engine settings (`EngineSettings.ANIMATION.led_count`). -/
structure SceneManager where
  scenes : List (ℤ × Scene) := []
  active_scene_id : Option ℤ := none
  pattern_transition : PatternTransition := {}
  transition_config : PatternTransitionConfig := {}
  animation_led_count : ℤ := 225
deriving Repr, DecidableEq

/-- The guard `if not self.active_scene_id or self.active_scene_id not in
self.scenes` used throughout `SceneManager`, returning the active scene it
resolves.  Python truthiness makes scene id `0` count as "no active scene". -/
def SceneManager.active_scene (m : SceneManager) : Option Scene :=
  match m.active_scene_id with
  | none => none
  | some i => if i = 0 then none else m.scenes.lookup i

/-- Replace the scene stored under the active id (Python mutates the scene
object held in the dict in place). -/
def SceneManager.set_active_scene (m : SceneManager) (f : Scene → Scene) :
    SceneManager :=
  match m.active_scene_id with
  | none => m
  | some i => { m with scenes := updAssoc i f m.scenes }

/-- Source `SceneManager.start_pattern_transition(to_effect_id, to_palette_id)`;
`none` embeds the Python default `None`, and Python's `x or y` also takes
`y` when `x` is `0` or `""`. -/
def SceneManager.start_pattern_transition (m : SceneManager) (now : ℚ)
    (to_effect_id : Option ℤ) (to_palette_id : Option String) :
    SceneManager × Bool :=
  match m.active_scene with
  | none => (m, false)
  | some current_scene =>
    let to_eff := match to_effect_id with
      | some e => if e = 0 then current_scene.current_effect_id else e
      | none => current_scene.current_effect_id
    let to_pal := match to_palette_id with
      | some p => if p = "" then current_scene.current_palette else p
      | none => current_scene.current_palette
    ({ m with pattern_transition := {
        is_active := true
        phase := .fade_out
        from_effect_id := current_scene.current_effect_id
        from_palette_id := current_scene.current_palette
        to_effect_id := to_eff
        to_palette_id := to_pal
        fade_in_ms := m.transition_config.fade_in_ms
        fade_out_ms := m.transition_config.fade_out_ms
        waiting_ms := m.transition_config.waiting_ms
        start_time := now
        phase_start_time := now
        progress := 0 } }, true)

/-- Source `SceneManager._complete_pattern_transition()`. -/
def SceneManager.complete_pattern_transition (m : SceneManager) :
    SceneManager :=
  match m.active_scene with
  | none => m
  | some _ =>
    let m := m.set_active_scene (fun scene =>
      { scene with
        current_effect_id := m.pattern_transition.to_effect_id
        current_palette := m.pattern_transition.to_palette_id })
    { m with pattern_transition :=
      { m.pattern_transition with is_active := false, phase := .completed } }

/-- Source `SceneManager._update_pattern_transition(current_time)`. -/
def SceneManager.update_pattern_transition (m : SceneManager)
    (current_time : ℚ) : SceneManager :=
  if ¬m.pattern_transition.is_active then m
  else
    let t := m.pattern_transition
    let phase_elapsed := (current_time - t.phase_start_time) * 1000
    match t.phase with
    | .fade_out =>
      if phase_elapsed ≥ (t.fade_out_ms : ℚ) then
        { m with pattern_transition :=
          { t with phase := .waiting, phase_start_time := current_time } }
      else
        { m with pattern_transition :=
          { t with progress := 1 - phase_elapsed / (t.fade_out_ms : ℚ) } }
    | .waiting =>
      if phase_elapsed ≥ (t.waiting_ms : ℚ) then
        { m with pattern_transition :=
          { t with phase := .fade_in, phase_start_time := current_time } }
      else
        { m with pattern_transition := { t with progress := 0 } }
    | .fade_in =>
      if phase_elapsed ≥ (t.fade_in_ms : ℚ) then
        m.complete_pattern_transition
      else
        { m with pattern_transition :=
          { t with progress := phase_elapsed / (t.fade_in_ms : ℚ) } }
    | .completed => m

/-- Scale a 3-channel frame color by `progress` (the fade branches of
`_get_transition_led_output`, with `int(...)` truncation per channel). -/
def scaleColor (progress : ℚ) (color : List ℤ) : List ℤ :=
  [pyInt ((color.getD 0 0 : ℚ) * progress),
   pyInt ((color.getD 1 0 : ℚ) * progress),
   pyInt ((color.getD 2 0 : ℚ) * progress)]

/-- Source `SceneManager._get_transition_led_output()`, returning the frame and
the (mutated) manager: the fade branches write the `from_*`/`to_*` ids
into the active scene before rendering it. -/
def SceneManager.get_transition_led_output (m : SceneManager) :
    List (List ℤ) × SceneManager :=
  match m.active_scene with
  | none => (List.replicate m.animation_led_count.toNat [0, 0, 0], m)
  | some scene =>
    let t := m.pattern_transition
    match t.phase with
    | .fade_out =>
      let scene' := { scene with
        current_effect_id := t.from_effect_id
        current_palette := t.from_palette_id }
      (scene'.get_led_output.map (scaleColor t.progress),
       m.set_active_scene (fun _ => scene'))
    | .waiting => (List.replicate m.animation_led_count.toNat [0, 0, 0], m)
    | .fade_in =>
      let scene' := { scene with
        current_effect_id := t.to_effect_id
        current_palette := t.to_palette_id }
      (scene'.get_led_output.map (scaleColor t.progress),
       m.set_active_scene (fun _ => scene'))
    | .completed =>
      (List.replicate m.animation_led_count.toNat [0, 0, 0], m)

/-- Source `SceneManager.get_led_output()`, returning the frame and the manager
(which `_get_transition_led_output` may have mutated). -/
def SceneManager.get_led_output (m : SceneManager) :
    List (List ℤ) × SceneManager :=
  if ¬m.pattern_transition.is_active then
    match m.active_scene with
    | some scene => (scene.get_led_output, m)
    | none => (List.replicate m.animation_led_count.toNat [0, 0, 0], m)
  else m.get_transition_led_output

/-- Source `SceneManager.update_palette_color(palette_id, color_id, rgb)`,
returning the manager and the success flag.  Note: the stored entry is
`rgb[:3]`, with no clamping here. -/
def SceneManager.update_palette_color (m : SceneManager)
    (palette_id : String) (color_id : ℤ) (rgb : List ℤ) :
    SceneManager × Bool :=
  match m.active_scene with
  | none => (m, false)
  | some scene =>
    match scene.palettes.lookup palette_id with
    | none => (m, false)
    | some pal =>
      if 0 ≤ color_id ∧ color_id < (pal.length : ℤ) then
        let write := fun (p : List (List ℤ)) => p.set color_id.toNat (rgb.take 3)
        (m.set_active_scene (fun sc =>
          { sc with palettes := updAssoc palette_id write sc.palettes }), true)
      else (m, false)

/-- The RGB sanitisation performed by `OSCHandler._handle_palette_message`
before it forwards `(palette_id, color_id, rgb)` to the palette handler:
`rgb[i] = max(0, min(255, rgb[i]))` on the first three arguments. -/
def oscClampRgb (r g b : ℤ) : List ℤ := [clamp255 r, clamp255 g, clamp255 b]

/-! ### Concrete instances used by individual claims -/

/-- The C8 scenario: `fade=true`, `dimmer_time=[0,100,0]`, one part of 5
LEDs, palette color 0, full transparency, no gradient.  A fixed point of
`Segment.post_init` (see `c8Seg_constructed`), hence a constructible
segment. -/
def c8Seg : Segment :=
  { segment_id := 1, color := [0], transparency := [1], length := [5],
    fade := true, dimmer_time := [0, 100, 0], gradient := false,
    current_position := 1, initial_position := 1 }

/-- The C5 scenario: a constructed reflecting segment whose
`initial_position` 300 lies outside `move_range = [0, 224]` and whose
`move_speed` 0.0005 is below the 0.001 dead-band. -/
def c5Bad : Segment :=
  Segment.post_init
    { segment_id := 1, initial_position := 300, move_speed := 1/2000 }

/-- A C5 witness segment: in range, speed 5, reflecting defaults. -/
def c5Wit : Segment :=
  { segment_id := 1, current_position := 10, move_speed := 5 }

/-- The C3 scenario: effect id 1 exists, palette "B" does not. -/
def c3Scene : Scene :=
  { scene_id := 1, current_effect_id := 2, current_palette := "A",
    palettes := [],
    effects := [("1", { effect_id := 1 }), ("2", { effect_id := 2 })] }

/-- The C4 scenario scene: palette "A" with two entries. -/
def c4Scene : Scene :=
  { scene_id := 1, palettes := [("A", [[1, 2, 3], [4, 5, 6]])] }

/-- The C4 scenario manager: scene 1 active. -/
def c4Mgr : SceneManager :=
  { scenes := [(1, c4Scene)], active_scene_id := some 1 }

/-- A C7 witness segment at position 1 painting palette color 0. -/
def c7SegA : Segment :=
  { segment_id := 1, color := [0], transparency := [1], length := [2],
    current_position := 1, initial_position := 1 }

/-- A C7 witness segment at position 2 painting palette color 1. -/
def c7SegB : Segment :=
  { segment_id := 2, color := [1], transparency := [1], length := [2],
    current_position := 2, initial_position := 2 }

/-- The C7 witness effect: two overlapping segments on 4 LEDs. -/
def c7Eff : Effect :=
  { effect_id := 1, led_count := 4, segments := [c7SegA, c7SegB] }

/-- The C1 scenario scene. -/
def c1Scene : Scene :=
  { scene_id := 1, current_effect_id := 1, current_palette := "A" }

/-- The C1 scenario manager: a pattern transition in its FADE_IN phase,
heading from effect 1/"A" to effect 2/"B". -/
def c1Trans : PatternTransition :=
  { is_active := true, phase := TransitionPhase.fade_in,
    from_effect_id := 1, from_palette_id := "A", to_effect_id := 2,
    to_palette_id := "B", fade_in_ms := 100, phase_start_time := 0 }

def c1Mgr : SceneManager :=
  { scenes := [(1, c1Scene)], active_scene_id := some 1,
    pattern_transition := c1Trans }

/-- The C2 scenario effect: 7 LEDs, differing from the configured count. -/
def c2Eff : Effect := { effect_id := 1, led_count := 7 }

/-- The C2 scenario scene resolving `c2Eff` as its current effect. -/
def c2Scene : Scene :=
  { scene_id := 1, current_effect_id := 1, effects := [("1", c2Eff)] }

/-- The C2 scenario manager: configured LED count 10, transition WAITING. -/
def c2Trans : PatternTransition :=
  { is_active := true, phase := TransitionPhase.waiting,
    from_effect_id := 1, from_palette_id := "A", to_effect_id := 1,
    to_palette_id := "A" }

def c2Mgr : SceneManager :=
  { scenes := [(1, c2Scene)], active_scene_id := some 1,
    pattern_transition := c2Trans, animation_led_count := 10 }



/-! ### Lemmas about `Segment.post_init` and `Segment.get_led_colors` -/

theorem post_init_current_position (s : Segment) :
    s.post_init.current_position =
      (if s.current_position = 0 then (s.initial_position : ℚ)
       else s.current_position) := by
  simp only [Segment.post_init]
  split_ifs <;> rfl

theorem post_init_initial_position (s : Segment) :
    s.post_init.initial_position = s.initial_position := by
  simp only [Segment.post_init]
  split_ifs <;> rfl

theorem post_init_list_lengths (s : Segment) :
    s.post_init.color ≠ [] ∧
    s.post_init.color.length ≤ s.post_init.transparency.length ∧
    s.post_init.color.length ≤ s.post_init.length.length := by
  simp only [Segment.post_init]
  split_ifs <;>
    simp_all [List.length_append, List.length_replicate] <;> omega

theorem emit_parts_nil (s : Segment) (palette : List (List ℤ)) (T : ℤ)
    (acc : List (List ℤ) × ℕ) : s.emit_parts palette T [] acc = acc := rfl

theorem emit_parts_cons (s : Segment) (palette : List (List ℤ)) (T : ℤ)
    (i : ℕ) (l : ℤ) (rest : List (ℕ × ℤ)) (colors : List (List ℤ))
    (cur : ℕ) :
    s.emit_parts palette T ((i, l) :: rest) (colors, cur) =
      (if (max 0 l).toNat = 0 then
        s.emit_parts palette T rest (colors, cur)
      else
        s.emit_parts palette T rest
          (colors ++ (List.range (max 0 l).toNat).map (fun led_in_part =>
            s.calculate_led_color
              (if i < s.color.length then s.color.getD i 0 else 0)
              (if i < s.transparency.length then s.transparency.getD i 1 else 1)
              (cur + led_in_part) T palette led_in_part (max 0 l).toNat),
           cur + (max 0 l).toNat)) := rfl

theorem emit_parts_spec (s : Segment) (palette : List (List ℤ)) (T : ℤ) :
    ∀ (ps : List (ℕ × ℤ)) (colors : List (List ℤ)) (cur : ℕ),
      (s.emit_parts palette T ps (colors, cur)).1.length =
        colors.length + (ps.map (fun p => (max 0 p.2).toNat)).sum ∧
      (s.emit_parts palette T ps (colors, cur)).2 =
        cur + (ps.map (fun p => (max 0 p.2).toNat)).sum := by
  intro ps
  induction ps with
  | nil => intro colors cur; simp [emit_parts_nil]
  | cons head rest ih =>
    intro colors cur
    obtain ⟨i, l⟩ := head
    have ihl : ∀ (a : List (List ℤ)) (b : ℕ),
        (s.emit_parts palette T rest (a, b)).1.length =
          a.length + (rest.map (fun p => (max 0 p.2).toNat)).sum :=
      fun a b => (ih a b).1
    have ihc : ∀ (a : List (List ℤ)) (b : ℕ),
        (s.emit_parts palette T rest (a, b)).2 =
          b + (rest.map (fun p => (max 0 p.2).toNat)).sum :=
      fun a b => (ih a b).2
    by_cases h0 : (max 0 l).toNat = 0
    · rw [emit_parts_cons, if_pos h0]
      simp only [List.map_cons, List.sum_cons, h0, ihl, ihc]
      omega
    · rw [emit_parts_cons, if_neg h0]
      refine ⟨?_, ?_⟩
      · rw [ihl]
        simp only [List.length_append, List.length_map, List.length_range,
          List.map_cons, List.sum_cons]
        omega
      · rw [ihc]
        simp only [List.map_cons, List.sum_cons]
        omega

theorem sum_max_toNat (L : List ℤ) :
    ((L.map (fun l => max 0 l)).sum).toNat =
      (L.map (fun l => (max 0 l).toNat)).sum := by
  induction L with
  | nil => rfl
  | cons a L ih =>
    simp only [List.map_cons, List.sum_cons]
    rw [Int.toNat_add (le_max_left 0 a), ih]
    exact List.sum_nonneg (fun x hx => by
      obtain ⟨y, _, rfl⟩ := List.mem_map.mp hx
      exact le_max_left 0 y)

theorem enumFrom_sum_max (f : ℤ → ℕ) :
    ∀ (n : ℕ) (L : List ℤ),
      ((L.enumFrom n).map (fun p => f p.2)).sum = (L.map f).sum := by
  intro n L
  induction L generalizing n with
  | nil => rfl
  | cons a L ih => simp [List.enumFrom, ih]

theorem enum_sum_max (L : List ℤ) :
    (L.enum.map (fun p => (max 0 p.2).toNat)).sum =
      (L.map (fun l => (max 0 l).toNat)).sum :=
  enumFrom_sum_max (fun l => (max 0 l).toNat) 0 L

theorem get_led_colors_length (t : Segment) (palette : List (List ℤ))
    (hc : t.color ≠ []) (hl : t.color.length ≤ t.length.length)
    (hp : palette ≠ []) :
    (t.get_led_colors palette).length =
      ((t.length.map (fun l => max 0 l)).sum).toNat := by
  simp only [Segment.get_led_colors]
  rw [if_neg (fun h => h.elim hc hp)]
  by_cases hT : (t.length.map (fun l => max 0 l)).sum = 0
  · rw [if_pos hT, if_neg (not_lt.mpr hl), hT]
    rfl
  · rw [if_neg hT, if_neg (not_lt.mpr hl),
      (emit_parts_spec t palette ((t.length.map (fun l => max 0 l)).sum)
        t.length.enum [] 0).1,
      enum_sum_max, sum_max_toNat]
    simp

/-! ### Claims C6, C8, C9, C10 -/

/-- C6 (amended): for every constructed segment and every NONEMPTY palette,
`get_led_colors` has length `Σ max(0, length[i]) + max(0, color.length −
length.length)`; an empty palette short-circuits to the empty list. -/
theorem C6_led_colors_length (s : Segment) (palette : List (List ℤ))
    (hp : palette ≠ []) :
    ((((Segment.post_init s).get_led_colors palette).length : ℤ)) =
      ((Segment.post_init s).length.map (fun l => max 0 l)).sum +
      max 0 (((Segment.post_init s).color.length : ℤ) -
        ((Segment.post_init s).length.length : ℤ)) := by
  obtain ⟨hc, _, hl⟩ := post_init_list_lengths s
  rw [get_led_colors_length _ _ hc hl hp]
  have h0 : max 0 (((Segment.post_init s).color.length : ℤ) -
      ((Segment.post_init s).length.length : ℤ)) = 0 := by
    apply max_eq_left; omega
  have hnn : 0 ≤ ((Segment.post_init s).length.map (fun l => max 0 l)).sum :=
    List.sum_nonneg (fun x hx => by
      obtain ⟨y, _, rfl⟩ := List.mem_map.mp hx
      exact le_max_left 0 y)
  rw [h0, add_zero]
  omega

/-- C6 witness: a concrete constructed segment and nonempty palette. -/
theorem C6_witness :
    ((((Segment.post_init { segment_id := 1 }).get_led_colors
        [[1, 2, 3]]).length : ℤ)) =
      ((Segment.post_init { segment_id := 1 }).length.map
        (fun l => max 0 l)).sum +
      max 0 (((Segment.post_init { segment_id := 1 }).color.length : ℤ) -
        ((Segment.post_init { segment_id := 1 }).length.length : ℤ)) :=
  C6_led_colors_length { segment_id := 1 } [[1, 2, 3]] (by decide)

/-- C6 counterexample: with an empty palette `get_led_colors` returns `[]`
(length 0), while the claimed formula gives 31 for the default segment. -/
theorem C6_counterexample :
    ¬ (((((Segment.post_init { segment_id := 1 }).get_led_colors
          []).length : ℤ)) =
        ((Segment.post_init { segment_id := 1 }).length.map
          (fun l => max 0 l)).sum +
        max 0 (((Segment.post_init { segment_id := 1 }).color.length : ℤ) -
          ((Segment.post_init { segment_id := 1 }).length.length : ℤ))) := by
  decide

/-- C9: after `__post_init__`, `transparency` and `length` are at least as
long as `color`; hence `color.length > length.length` never holds and the
extra-color single-LED step emits nothing: the output length is exactly the
part-loop total `Σ max(0, length[i])` (or 0 for an empty palette). -/
theorem C9_post_init_padding (s : Segment) (palette : List (List ℤ)) :
    (Segment.post_init s).color.length ≤
      (Segment.post_init s).transparency.length ∧
    (Segment.post_init s).color.length ≤
      (Segment.post_init s).length.length ∧
    ¬ (Segment.post_init s).length.length <
      (Segment.post_init s).color.length ∧
    ((Segment.post_init s).get_led_colors palette).length =
      (if palette = [] then 0
       else (((Segment.post_init s).length.map (fun l => max 0 l)).sum).toNat) := by
  obtain ⟨hc, ht, hl⟩ := post_init_list_lengths s
  refine ⟨ht, hl, not_lt.mpr hl, ?_⟩
  by_cases hp : palette = []
  · rw [if_pos hp, hp]
    simp [Segment.get_led_colors]
  · rw [if_neg hp, get_led_colors_length _ _ hc hl hp]

/-- The segment `c8Seg` is a fixed point of `__post_init__`, hence constructible. -/
theorem c8Seg_constructed : Segment.post_init c8Seg = c8Seg := by decide

set_option maxHeartbeats 4000000 in
/-- Evaluation of the C8 scenario in the exact-rational model. -/
theorem c8Seg_output :
    c8Seg.get_led_colors [[255, 255, 255]] =
      [[0, 0, 0], [102, 102, 102], [204, 204, 204],
       [204, 204, 204], [102, 102, 102]] := by
  have hne : (([0, 100, 0] : List ℤ) = []) = False := by simp
  have hfl1 : (⌊(2/5 : ℚ)⌋ : ℤ) = 0 := by norm_num [Int.floor_eq_iff]
  have hfl2 : (⌊(4/5 : ℚ)⌋ : ℤ) = 0 := by norm_num [Int.floor_eq_iff]
  have hfl3 : (⌊(6/5 : ℚ)⌋ : ℤ) = 1 := by norm_num [Int.floor_eq_iff]
  have hfl4 : (⌊(8/5 : ℚ)⌋ : ℤ) = 1 := by norm_num [Int.floor_eq_iff]
  have h102 : (⌊(102 : ℚ)⌋ : ℤ) = 102 := by norm_num
  have h204 : (⌊(204 : ℚ)⌋ : ℤ) = 204 := by norm_num
  have e0 : c8Seg.calculate_led_color 0 1 0 5 [[255, 255, 255]] 0 5 =
      [0, 0, 0] := by
    norm_num [hne, c8Seg, Segment.calculate_led_color,
      Segment.get_brightness_at_position, clamp01, clamp255, pyInt,
      min_def, max_def]
  have e1 : c8Seg.calculate_led_color 0 1 1 5 [[255, 255, 255]] 1 5 =
      [102, 102, 102] := by
    norm_num [hne, hfl1, h102, c8Seg, Segment.calculate_led_color,
      Segment.get_brightness_at_position, clamp01, clamp255, pyInt,
      min_def, max_def]
  have e2 : c8Seg.calculate_led_color 0 1 2 5 [[255, 255, 255]] 2 5 =
      [204, 204, 204] := by
    norm_num [hne, hfl2, h204, c8Seg, Segment.calculate_led_color,
      Segment.get_brightness_at_position, clamp01, clamp255, pyInt,
      min_def, max_def]
  have e3 : c8Seg.calculate_led_color 0 1 3 5 [[255, 255, 255]] 3 5 =
      [204, 204, 204] := by
    norm_num [hne, hfl3, h204, c8Seg, Segment.calculate_led_color,
      Segment.get_brightness_at_position, clamp01, clamp255, pyInt,
      min_def, max_def]
  have e4 : c8Seg.calculate_led_color 0 1 4 5 [[255, 255, 255]] 4 5 =
      [102, 102, 102] := by
    norm_num [hne, hfl4, h102, c8Seg, Segment.calculate_led_color,
      Segment.get_brightness_at_position, clamp01, clamp255, pyInt,
      min_def, max_def]
  have hmx : (max (0 : ℤ) 5) = 5 := by decide
  have htn : ((5 : ℤ)).toNat = 5 := rfl
  have hr : List.range 5 = [0, 1, 2, 3, 4] := rfl
  have henum : ([5] : List ℤ).enum = [(0, 5)] := rfl
  norm_num [c8Seg, Segment.get_led_colors, Segment.emit_parts, henum, hmx,
    htn, hr]
  exact ⟨e0, e1, e2, e3, e4⟩

/-- C8 counterexample: the five emitted channel values are
`0, 102, 204, 204, 102` — not within ±1 of the claimed `0, 127, 255, 127, 0`
(the code samples the dimmer curve at `i/T = 0, 0.2, 0.4, 0.6, 0.8`, not at
`0, 0.25, 0.5, 0.75, 1.0`). -/
theorem C8_counterexample :
    ((c8Seg.get_led_colors [[255, 255, 255]]).map (fun c => c.getD 0 0) =
      [0, 102, 204, 204, 102]) ∧
    ¬ (∀ i, i < 5 →
      ((((c8Seg.get_led_colors [[255, 255, 255]]).map
          (fun c => c.getD 0 0)).getD i 0) -
        (([0, 127, 255, 127, 0] : List ℤ).getD i 0)).natAbs ≤ 1) := by
  rw [c8Seg_output]
  constructor
  · decide
  · decide

/-- C8 (amended): in the exact-rational model the five LEDs of the scenario
come out as brightness factors 0, 0.4, 0.8, 0.8, 0.4, i.e. channel values
`0, 102, 204, 204, 102`: the dimmer curve is sampled at normalized
positions `i/T = 0, 0.2, 0.4, 0.6, 0.8` across the segment (the constructed
`c8Seg` is a `post_init` fixed point). -/
theorem C8_fade_curve :
    c8Seg.get_led_colors [[255, 255, 255]] =
      [[0, 0, 0], [102, 102, 102], [204, 204, 204],
       [204, 204, 204], [102, 102, 102]] ∧
    Segment.post_init c8Seg = c8Seg :=
  ⟨c8Seg_output, c8Seg_constructed⟩

/-- C10: a segment constructed (constructor or `from_dict`) with
`current_position = 0.0` ends up at `float(initial_position)`; conversely a
constructed segment resting at `0.0` must have `initial_position = 0`. -/
theorem C10_zero_position_fixup (s : Segment) :
    (s.current_position = 0 →
      (Segment.post_init s).current_position = (s.initial_position : ℚ) ∧
      (Segment.from_dict_fields s).current_position = (s.initial_position : ℚ)) ∧
    ((Segment.post_init s).current_position = 0 → s.initial_position = 0) := by
  constructor
  · intro h0
    have hp : (Segment.post_init s).current_position = (s.initial_position : ℚ) := by
      rw [post_init_current_position, if_pos h0]
    refine ⟨hp, ?_⟩
    simp only [Segment.from_dict_fields]
    by_cases hz : (Segment.post_init s).current_position = 0
    · rw [if_pos hz]
      have hproj : ({ Segment.post_init s with current_position :=
          ((Segment.post_init s).initial_position : ℚ) } : Segment).current_position =
          ((Segment.post_init s).initial_position : ℚ) := rfl
      rw [hproj, post_init_initial_position]
    · rw [if_neg hz]
      exact hp
  · intro hz
    rw [post_init_current_position] at hz
    by_cases h0 : s.current_position = 0
    · rw [if_pos h0] at hz
      exact_mod_cast hz
    · rw [if_neg h0] at hz
      exact absurd hz h0

/-- C10 witness: `initial_position = 5`, `current_position = 0`. -/
theorem C10_witness :
    (Segment.post_init { segment_id := 1, initial_position := 5 }).current_position =
      ((5 : ℤ) : ℚ) ∧
    (Segment.from_dict_fields { segment_id := 1, initial_position := 5 }).current_position =
      ((5 : ℤ) : ℚ) :=
  (C10_zero_position_fixup { segment_id := 1, initial_position := 5 }).1 rfl

/-! ### Claim C5: reflecting bounds -/

theorem post_init_scalars (s : Segment) :
    s.post_init.move_speed = s.move_speed ∧
    s.post_init.move_range = s.move_range ∧
    s.post_init.is_edge_reflect = s.is_edge_reflect := by
  simp only [Segment.post_init]
  split_ifs <;> exact ⟨rfl, rfl, rfl⟩

theorem update_position_preserves (s : Segment) (dt : ℚ) :
    (s.update_position dt).move_range = s.move_range ∧
    (s.update_position dt).is_edge_reflect = s.is_edge_reflect := by
  simp only [Segment.update_position]
  split_ifs <;> exact ⟨rfl, rfl⟩

theorem update_position_mem (s : Segment) (dt : ℚ)
    (hrefl : s.is_edge_reflect = true) (hlen : 2 ≤ s.move_range.length)
    (hlo : ((s.move_range.getD 0 0 : ℤ) : ℚ) ≤ s.current_position)
    (hhi : s.current_position ≤ ((s.move_range.getD 1 0 : ℤ) : ℚ)) :
    ((s.move_range.getD 0 0 : ℤ) : ℚ) ≤ (s.update_position dt).current_position ∧
    (s.update_position dt).current_position ≤
      ((s.move_range.getD 1 0 : ℤ) : ℚ) := by
  simp only [Segment.update_position]
  split_ifs with h1 h2 h3 h4 h5 h6
  · exact ⟨hlo, hhi⟩
  · exact ⟨le_refl _, hlo.trans hhi⟩
  · exact ⟨hlo.trans hhi, le_refl _⟩
  · constructor
    · exact le_of_lt (not_le.mp h3)
    · exact le_of_lt (not_le.mp h4)
  · exact absurd hrefl h5.1
  · exact absurd hrefl h5.1
  · exact absurd ⟨hrefl, hlen⟩ h2

theorem foldl_update_position_mem (lo hi : ℤ) (dts : List ℚ) :
    ∀ s : Segment, s.is_edge_reflect = true → 2 ≤ s.move_range.length →
      s.move_range.getD 0 0 = lo → s.move_range.getD 1 0 = hi →
      (lo : ℚ) ≤ s.current_position → s.current_position ≤ (hi : ℚ) →
      (lo : ℚ) ≤ (dts.foldl Segment.update_position s).current_position ∧
      (dts.foldl Segment.update_position s).current_position ≤ (hi : ℚ) := by
  induction dts with
  | nil => intro s _ _ _ _ h5 h6; exact ⟨h5, h6⟩
  | cons dt rest ih =>
    intro s h1 h2 h3 h4 h5 h6
    have hp := update_position_preserves s dt
    have hm := update_position_mem s dt h1 h2 (by rw [h3]; exact h5)
      (by rw [h4]; exact h6)
    rw [h3] at hm
    rw [h4] at hm
    simp only [List.foldl_cons]
    refine ih (s.update_position dt) ?_ ?_ ?_ ?_ hm.1 hm.2
    · rw [hp.2]; exact h1
    · rw [hp.1]; exact h2
    · rw [hp.1]; exact h3
    · rw [hp.1]; exact h4

/-- C5 (amended): for a reflecting segment whose position STARTS inside
`[lo, hi]`, any sequence of `update_position` calls keeps it inside; and
when a step with `|move_speed| ≥ 0.001` reaches a boundary, the position is
clamped there with the speed sign forced (`+|v|` at `lo`, `−|v|` at `hi`).
The out-of-range start is not repaired when `|move_speed| < 0.001`
(see the counterexample). -/
theorem C5_edge_reflect_bounds (s : Segment)
    (hrefl : s.is_edge_reflect = true) (hlen : 2 ≤ s.move_range.length)
    (hlo : ((s.move_range.getD 0 0 : ℤ) : ℚ) ≤ s.current_position)
    (hhi : s.current_position ≤ ((s.move_range.getD 1 0 : ℤ) : ℚ)) :
    (∀ dts : List ℚ,
      ((s.move_range.getD 0 0 : ℤ) : ℚ) ≤
        (dts.foldl Segment.update_position s).current_position ∧
      (dts.foldl Segment.update_position s).current_position ≤
        ((s.move_range.getD 1 0 : ℤ) : ℚ)) ∧
    (∀ dt : ℚ, 1/1000 ≤ |s.move_speed| →
      (s.current_position + s.move_speed * dt ≤
          ((s.move_range.getD 0 0 : ℤ) : ℚ) →
        (s.update_position dt).current_position =
          ((s.move_range.getD 0 0 : ℤ) : ℚ) ∧
        (s.update_position dt).move_speed = |s.move_speed|) ∧
      (((s.move_range.getD 0 0 : ℤ) : ℚ) <
          s.current_position + s.move_speed * dt →
       ((s.move_range.getD 1 0 : ℤ) : ℚ) ≤
          s.current_position + s.move_speed * dt →
        (s.update_position dt).current_position =
          ((s.move_range.getD 1 0 : ℤ) : ℚ) ∧
        (s.update_position dt).move_speed = -|s.move_speed|)) := by
  constructor
  · intro dts
    exact foldl_update_position_mem (s.move_range.getD 0 0)
      (s.move_range.getD 1 0) dts s hrefl hlen rfl rfl hlo hhi
  · intro dt hsp
    constructor
    · intro hle
      simp only [Segment.update_position]
      rw [if_neg (not_lt.mpr hsp), if_pos ⟨hrefl, hlen⟩, if_pos hle]
      exact ⟨rfl, rfl⟩
    · intro hgt hge
      simp only [Segment.update_position]
      rw [if_neg (not_lt.mpr hsp), if_pos ⟨hrefl, hlen⟩,
        if_neg (not_le.mpr hgt), if_pos hge]
      exact ⟨rfl, rfl⟩

/-- C5 witness: an in-range segment stays in `[0, 224]` after a step. -/
theorem C5_witness :
    ((c5Wit.move_range.getD 0 0 : ℤ) : ℚ) ≤
      (([(100 : ℚ)]).foldl Segment.update_position c5Wit).current_position ∧
    (([(100 : ℚ)]).foldl Segment.update_position c5Wit).current_position ≤
      ((c5Wit.move_range.getD 1 0 : ℤ) : ℚ) :=
  (C5_edge_reflect_bounds c5Wit rfl (by decide)
    (by norm_num [c5Wit, List.getD_cons_zero])
    (by norm_num [c5Wit, List.getD_cons_succ, List.getD_cons_zero])).1 [100]

/-- C5 counterexample: a constructed reflecting segment with
`move_range = [0, 224]`, `initial_position = 300` and `move_speed = 0.0005`
stays at 300 after `update_position(1)` — outside `[lo, hi]` — because the
speed dead-band returns before clamping. -/
theorem C5_counterexample :
    c5Bad.is_edge_reflect = true ∧ c5Bad.move_range = [0, 224] ∧
    ¬ ((c5Bad.update_position 1).current_position ≤
        ((c5Bad.move_range.getD 1 0 : ℤ) : ℚ)) := by
  have hsc := post_init_scalars
    ({ segment_id := 1, initial_position := 300, move_speed := 1/2000 } : Segment)
  have hms : c5Bad.move_speed = 1/2000 := hsc.1
  have hmr : c5Bad.move_range = [0, 224] := hsc.2.1
  have hre : c5Bad.is_edge_reflect = true := hsc.2.2
  have hcp : c5Bad.current_position = ((300 : ℤ) : ℚ) := by
    have := post_init_current_position
      ({ segment_id := 1, initial_position := 300, move_speed := 1/2000 } : Segment)
    rw [if_pos rfl] at this
    exact this
  have habs : |c5Bad.move_speed| < 1/1000 := by
    rw [hms, abs_of_pos (by norm_num : (0 : ℚ) < 1/2000)]
    norm_num
  have hupd : c5Bad.update_position 1 = c5Bad := by
    simp only [Segment.update_position]
    rw [if_pos habs]
  refine ⟨hre, hmr, ?_⟩
  rw [hupd, hcp, hmr]
  norm_num [List.getD_cons_succ, List.getD_cons_zero]

/-! ### Claims C3 and C4 -/

theorem lookup_updAssoc {κ ν : Type} [BEq κ] [LawfulBEq κ] (k : κ)
    (f : ν → ν) (l : List (κ × ν)) :
    (updAssoc k f l).lookup k = (l.lookup k).map f := by
  induction l with
  | nil => rfl
  | cons p rest ih =>
    obtain ⟨k', v⟩ := p
    by_cases h : k' = k
    · subst h
      simp [updAssoc, List.lookup, ih]
    · have h1 : (k' == k) = false := beq_eq_false_iff_ne.mpr h
      have h2 : (k == k') = false := beq_eq_false_iff_ne.mpr (Ne.symm h)
      simp [updAssoc, List.lookup, h1, h2, ih]

/-- C3 (amended): `switch_effect` updates the two selectors independently:
`current_effect_id` changes iff the effect id resolves, `current_palette`
changes iff the palette argument is truthy and resolves; an unknown palette
does NOT prevent the effect id from being updated (no atomicity). -/
theorem C3_switch_effect_independent (s : Scene) (effect_id : ℤ)
    (p : String) :
    (s.switch_effect effect_id (some p)).current_effect_id =
      (if (s.effects.lookup (toString effect_id)).isSome then effect_id
       else s.current_effect_id) ∧
    (s.switch_effect effect_id (some p)).current_palette =
      (if p ≠ "" ∧ (s.palettes.lookup p).isSome then p
       else s.current_palette) := by
  simp only [Scene.switch_effect]
  split_ifs <;> simp_all

/-- C3 counterexample: in `c3Scene` the effect id `1` resolves but palette
`"B"` does not; `switch_effect(1, "B")` still commits the effect id
(2 ↦ 1), a partial update the claim rules out. -/
theorem C3_counterexample :
    (c3Scene.effects.lookup (toString (1 : ℤ))).isSome = true ∧
    c3Scene.palettes.lookup "B" = none ∧
    c3Scene.current_effect_id = 2 ∧
    (c3Scene.switch_effect 1 (some "B")).current_effect_id = 1 ∧
    (c3Scene.switch_effect 1 (some "B")).current_palette = "A" := by
  decide

theorem active_scene_set_active_scene (m : SceneManager) (f : Scene → Scene) :
    (m.set_active_scene f).active_scene = m.active_scene.map f := by
  cases hid : m.active_scene_id with
  | none => simp [SceneManager.set_active_scene, SceneManager.active_scene, hid]
  | some i =>
    simp only [SceneManager.set_active_scene, SceneManager.active_scene, hid]
    by_cases h0 : i = 0
    · simp [h0]
    · simp [h0, lookup_updAssoc]

/-- C4 (amended): a successful `update_palette_color` stores the first
three channels of `rgb` VERBATIM (`rgb[:3]`, no clamping inside the scene
manager); a failing call leaves the manager untouched; the clamping into
[0,255] claimed by the spec is performed by the OSC palette handler before
the call, so OSC-originated writes are clamped. -/
theorem C4_update_palette_color (m : SceneManager) (pid : String) (cid : ℤ)
    (rgb : List ℤ) (scene : Scene) (pal : List (List ℤ))
    (hs : m.active_scene = some scene)
    (hp : scene.palettes.lookup pid = some pal)
    (hc : 0 ≤ cid ∧ cid < (pal.length : ℤ)) :
    ((m.update_palette_color pid cid rgb).2 = true ∧
     ((m.update_palette_color pid cid rgb).1.active_scene).bind
        (fun sc => sc.palettes.lookup pid) =
      some (pal.set cid.toNat (rgb.take 3))) ∧
    (∀ pid' cid' rgb', (m.update_palette_color pid' cid' rgb').2 = false →
      (m.update_palette_color pid' cid' rgb').1 = m) ∧
    (∀ r g b v, v ∈ oscClampRgb r g b → 0 ≤ v ∧ v ≤ 255) := by
  refine ⟨?_, ?_, ?_⟩
  · simp only [SceneManager.update_palette_color, hs, hp, if_pos hc]
    refine ⟨by trivial, ?_⟩
    rw [active_scene_set_active_scene, hs]
    simp [lookup_updAssoc, hp]
  · intro pid' cid' rgb' hfail
    simp only [SceneManager.update_palette_color, hs] at hfail ⊢
    cases hp' : scene.palettes.lookup pid' with
    | none => simp [hp'] at hfail ⊢
    | some pal' =>
      simp only [hp'] at hfail ⊢
      by_cases hc' : 0 ≤ cid' ∧ cid' < (pal'.length : ℤ)
      · rw [if_pos hc'] at hfail
        exact absurd hfail (by simp)
      · rw [if_neg hc'] at hfail ⊢
  · intro r g b v hv
    simp only [oscClampRgb, List.mem_cons, List.mem_singleton,
      List.not_mem_nil, or_false] at hv
    have hcl : ∀ w : ℤ, 0 ≤ clamp255 w ∧ clamp255 w ≤ 255 := by
      intro w
      refine ⟨le_max_left 0 _, max_le (by norm_num) (min_le_left 255 w)⟩
    rcases hv with h | h | h <;> rw [h] <;> exact hcl _

/-- C4 witness: writing `[300, 20, 30]` to palette "A", color 0. -/
theorem C4_witness :
    (c4Mgr.update_palette_color "A" 0 [300, 20, 30]).2 = true ∧
    ((c4Mgr.update_palette_color "A" 0 [300, 20, 30]).1.active_scene).bind
        (fun sc => sc.palettes.lookup "A") =
      some (([[1, 2, 3], [4, 5, 6]] : List (List ℤ)).set (0 : ℤ).toNat
        (([300, 20, 30] : List ℤ).take 3)) :=
  (C4_update_palette_color c4Mgr "A" 0 [300, 20, 30] c4Scene
    [[1, 2, 3], [4, 5, 6]] (by decide) (by decide) (by decide)).1

/-- C4 counterexample: the successful write of `rgb = [300, 20, 30]` stores
channel 300 as-is, which is NOT clamped into [0,255]: the stored entry is
`[300, 20, 30]`, not `[255, 20, 30]`. -/
theorem C4_counterexample :
    ((c4Mgr.update_palette_color "A" 0 [300, 20, 30]).1.active_scene).bind
        (fun sc => sc.palettes.lookup "A") =
      some [[300, 20, 30], [4, 5, 6]] ∧
    ¬ ((300 : ℤ) ≤ 255) := by
  decide

/-! ### Claim C7: order-independence of max-compositing -/


theorem mergeMax3_right_comm (v a b : List ℤ) :
    mergeMax3 (mergeMax3 v a) b = mergeMax3 (mergeMax3 v b) a := by
  induction v generalizing a b with
  | nil => simp [mergeMax3]
  | cons x xs ih =>
    cases a with
    | nil => cases b <;> simp [mergeMax3]
    | cons y ys =>
      cases b with
      | nil => simp [mergeMax3]
      | cons z zs =>
        simp only [mergeMax3, List.zipWith_cons_cons] at ih ⊢
        rw [ih, max_assoc, max_comm y z, ← max_assoc]

theorem writeMax_length (L : ℤ) (fr : List (List ℤ)) (idx : ℤ)
    (c : List ℤ) : (writeMax L fr idx c).length = fr.length := by
  unfold writeMax
  split_ifs <;> simp

theorem writeMax_get? (L : ℤ) (fr : List (List ℤ)) (idx : ℤ) (c : List ℤ)
    (k : ℕ) :
    (writeMax L fr idx c).get? k =
      (fr.get? k).map (fun v =>
        if (k : ℤ) = idx ∧ idx < L then mergeMax3 v c else v) := by
  unfold writeMax
  by_cases hg : 0 ≤ idx ∧ idx < L
  · rw [if_pos hg]
    by_cases hk : (k : ℤ) = idx
    · have hkn : idx.toNat = k := by omega
      subst hkn
      rw [List.get?_set_eq]
      cases h : fr.get? idx.toNat with
      | none => rfl
      | some v =>
        have hgd : fr.getD idx.toNat [] = v := by
          rw [List.getD_eq_getElem?_getD, ← List.get?_eq_getElem?, h]
          rfl
        simp only [Option.map_some']
        rw [hgd, if_pos ⟨hk, hg.2⟩]
        rfl
    · rw [List.get?_set_ne _ _ (by omega)]
      cases h : fr.get? k with
      | none => rfl
      | some v =>
        simp only [Option.map_some']
        rw [if_neg (fun hc : (k : ℤ) = idx ∧ idx < L => hk hc.1)]
  · rw [if_neg hg]
    cases h : fr.get? k with
    | none => rfl
    | some v =>
      simp only [Option.map_some']
      rw [if_neg (by omega : ¬((k : ℤ) = idx ∧ idx < L))]

theorem foldl_writeMax_get? (L : ℤ) (start : ℤ) (cs : List (List ℤ)) :
    ∀ (n k : ℕ) (fr : List (List ℤ)),
      ((cs.enumFrom n).foldl
        (fun fr ic => writeMax L fr (start + (ic.1 : ℤ)) ic.2) fr).get? k =
      (fr.get? k).map (fun v =>
        if start + n ≤ (k : ℤ) ∧ (k : ℤ) < start + n + cs.length ∧
            (k : ℤ) < L
        then mergeMax3 v (cs.getD ((k : ℤ) - (start + n)).toNat [])
        else v) := by
  induction cs with
  | nil =>
    intro n k fr
    simp only [List.enumFrom, List.foldl_nil, List.length_nil]
    cases h : fr.get? k with
    | none => rfl
    | some v =>
      simp only [Option.map_some']
      rw [if_neg (by omega :
        ¬(start + n ≤ (k : ℤ) ∧ (k : ℤ) < start + n + ((0 : ℕ) : ℤ) ∧
          (k : ℤ) < L))]
  | cons c cs ih =>
    intro n k fr
    simp only [List.enumFrom, List.foldl_cons, List.length_cons]
    rw [ih (n + 1) k (writeMax L fr (start + n) c), writeMax_get?]
    cases h : fr.get? k with
    | none => rfl
    | some v =>
      simp only [Option.map_some']
      by_cases h1 : (k : ℤ) = start + n ∧ start + n < L
      · rw [if_pos h1,
          if_neg (by omega :
            ¬(start + ((n + 1 : ℕ) : ℤ) ≤ (k : ℤ) ∧
              (k : ℤ) < start + ((n + 1 : ℕ) : ℤ) + (cs.length : ℤ) ∧
              (k : ℤ) < L)),
          if_pos (by omega :
            start + n ≤ (k : ℤ) ∧
              (k : ℤ) < start + n + (((cs.length + 1 : ℕ)) : ℤ) ∧
              (k : ℤ) < L)]
        have hz : ((k : ℤ) - (start + n)).toNat = 0 := by omega
        rw [hz, List.getD_cons_zero]
      · rw [if_neg h1]
        by_cases h2 : start + ((n + 1 : ℕ) : ℤ) ≤ (k : ℤ) ∧
            (k : ℤ) < start + ((n + 1 : ℕ) : ℤ) + (cs.length : ℤ) ∧
            (k : ℤ) < L
        · rw [if_pos h2,
            if_pos (by omega :
              start + n ≤ (k : ℤ) ∧
                (k : ℤ) < start + n + (((cs.length + 1 : ℕ)) : ℤ) ∧
                (k : ℤ) < L)]
          have hs : ((k : ℤ) - (start + n)).toNat =
              ((k : ℤ) - (start + ((n + 1 : ℕ) : ℤ))).toNat + 1 := by omega
          rw [hs, List.getD_cons_succ]
        · rw [if_neg h2]
          rw [if_neg ?_]
          intro hc
          by_cases hkk : (k : ℤ) = start + n
          · exact h1 ⟨hkk, by omega⟩
          · exact h2 ⟨by omega, by omega, hc.2.2⟩

theorem applySegment_length (L : ℤ) (palette : List (List ℤ))
    (fr : List (List ℤ)) (seg : Segment) :
    (applySegment L palette fr seg).length = fr.length := by
  simp only [applySegment]
  generalize (seg.get_led_colors palette).enum = ps
  induction ps generalizing fr with
  | nil => rfl
  | cons p rest ih =>
    simp only [List.foldl_cons]
    rw [ih, writeMax_length]

theorem applySegment_get? (L : ℤ) (palette : List (List ℤ))
    (fr : List (List ℤ)) (seg : Segment) (k : ℕ) :
    (applySegment L palette fr seg).get? k =
      (fr.get? k).map (fun v =>
        if pyInt seg.current_position ≤ (k : ℤ) ∧
            (k : ℤ) < pyInt seg.current_position +
              ((seg.get_led_colors palette).length : ℤ) ∧
            (k : ℤ) < L
        then mergeMax3 v ((seg.get_led_colors palette).getD
          ((k : ℤ) - pyInt seg.current_position).toNat [])
        else v) := by
  have h := foldl_writeMax_get? L (pyInt seg.current_position)
    (seg.get_led_colors palette) 0 k fr
  simp only [Nat.cast_zero, add_zero] at h
  simp only [applySegment]
  exact h

theorem applySegment_comm (L : ℤ) (palette : List (List ℤ))
    (fr : List (List ℤ)) (a b : Segment) :
    applySegment L palette (applySegment L palette fr a) b =
      applySegment L palette (applySegment L palette fr b) a := by
  apply List.ext
  intro k
  rw [applySegment_get?, applySegment_get?, applySegment_get?,
    applySegment_get?]
  cases h : fr.get? k with
  | none => simp
  | some v =>
    simp only [Option.map_some', Option.some.injEq]
    by_cases hA : pyInt a.current_position ≤ (k : ℤ) ∧
        (k : ℤ) < pyInt a.current_position +
          ((a.get_led_colors palette).length : ℤ) ∧ (k : ℤ) < L <;>
      by_cases hB : pyInt b.current_position ≤ (k : ℤ) ∧
          (k : ℤ) < pyInt b.current_position +
            ((b.get_led_colors palette).length : ℤ) ∧ (k : ℤ) < L
    · simp only [if_pos hA, if_pos hB]
      exact mergeMax3_right_comm v _ _
    · simp only [if_pos hA, if_neg hB]
    · simp only [if_neg hA, if_pos hB]
    · simp only [if_neg hA, if_neg hB]

theorem foldl_applySegment_perm (L : ℤ) (palette : List (List ℤ))
    {l₁ l₂ : List Segment} (h : l₁.Perm l₂) :
    ∀ fr : List (List ℤ),
      l₁.foldl (applySegment L palette) fr =
        l₂.foldl (applySegment L palette) fr := by
  induction h with
  | nil => intro fr; rfl
  | cons x _ ih => intro fr; simp only [List.foldl_cons]; exact ih _
  | swap x y l =>
    intro fr
    simp only [List.foldl_cons]
    rw [applySegment_comm]
  | trans _ _ ih1 ih2 => intro fr; rw [ih1, ih2]

/-- C7: compositing an effect's segments in any permutation of their
enumeration order yields the identical output frame (channel-wise max is
order-independent; out-of-range LEDs are dropped by `writeMax`). -/
theorem C7_composition_order_independent (e : Effect)
    (palette : List (List ℤ)) (segs : List Segment)
    (h : e.segments.Perm segs) :
    e.get_led_output palette =
      ({ e with segments := segs } : Effect).get_led_output palette := by
  simp only [Effect.get_led_output]
  exact foldl_applySegment_perm e.led_count palette h _

/-- C7 witness: the two-segment effect `c7Eff`, segments swapped. -/
theorem C7_witness :
    c7Eff.get_led_output [[10, 20, 30], [40, 50, 60]] =
      ({ c7Eff with segments := [c7SegB, c7SegA] } : Effect).get_led_output
        [[10, 20, 30], [40, 50, 60]] :=
  C7_composition_order_independent c7Eff [[10, 20, 30], [40, 50, 60]]
    [c7SegB, c7SegA] (List.Perm.swap c7SegB c7SegA [])

/-! ### Claim C2: frame lengths -/

theorem effect_output_length (e : Effect) (palette : List (List ℤ)) :
    (e.get_led_output palette).length = e.led_count.toNat := by
  simp only [Effect.get_led_output]
  have h : ∀ (segs : List Segment) (fr : List (List ℤ)),
      (segs.foldl (applySegment e.led_count palette) fr).length =
        fr.length := by
    intro segs
    induction segs with
    | nil => intro fr; rfl
    | cons s rest ih =>
      intro fr
      simp only [List.foldl_cons]
      rw [ih, applySegment_length]
  rw [h]
  exact List.length_replicate _ _

theorem scene_output_length (s : Scene) :
    s.get_led_output.length =
      (match s.get_current_effect with
       | some e => e.led_count.toNat
       | none => 225) := by
  cases h : s.get_current_effect with
  | none =>
    simp only [Scene.get_led_output, h]
    exact List.length_replicate _ _
  | some e =>
    simp only [Scene.get_led_output, h]
    exact effect_output_length e _

/-- C2 (amended): the frame length of `SceneManager.get_led_output` is the
current effect's `led_count` only OUTSIDE transitions (and in the fade
phases, for the `from_*`/`to_*` effect); the WAITING phase and the
completed-but-active fallback emit the CONFIGURED
`EngineSettings.ANIMATION.led_count`, and an active scene whose current
effect does not resolve yields the hard-coded length 225 (not the
configured count). -/
theorem C2_get_led_output_length (m : SceneManager) :
    (m.get_led_output).1.length =
      (if m.pattern_transition.is_active = false then
        (match m.active_scene with
         | some scene =>
           (match scene.get_current_effect with
            | some e => e.led_count.toNat
            | none => 225)
         | none => m.animation_led_count.toNat)
      else
        (match m.active_scene with
         | none => m.animation_led_count.toNat
         | some scene =>
           (match m.pattern_transition.phase with
            | TransitionPhase.fade_out =>
              (match ({ scene with
                  current_effect_id := m.pattern_transition.from_effect_id,
                  current_palette := m.pattern_transition.from_palette_id
                } : Scene).get_current_effect with
               | some e => e.led_count.toNat
               | none => 225)
            | TransitionPhase.waiting => m.animation_led_count.toNat
            | TransitionPhase.fade_in =>
              (match ({ scene with
                  current_effect_id := m.pattern_transition.to_effect_id,
                  current_palette := m.pattern_transition.to_palette_id
                } : Scene).get_current_effect with
               | some e => e.led_count.toNat
               | none => 225)
            | TransitionPhase.completed =>
              m.animation_led_count.toNat))) := by
  by_cases ht : m.pattern_transition.is_active
  · rw [if_neg (by simp [ht])]
    simp only [SceneManager.get_led_output, ht, not_true, if_neg]
    rw [if_neg (by simp [ht])]
    cases hs : m.active_scene with
    | none =>
      simp only [SceneManager.get_transition_led_output, hs]
      exact List.length_replicate _ _
    | some scene =>
      simp only [SceneManager.get_transition_led_output, hs]
      cases hp : m.pattern_transition.phase <;> simp only
      · rw [List.length_map]
        exact scene_output_length _
      · exact List.length_replicate _ _
      · rw [List.length_map]
        exact scene_output_length _
      · exact List.length_replicate _ _
  · have ht' : m.pattern_transition.is_active = false := by
      simpa using ht
    rw [if_pos ht']
    simp only [SceneManager.get_led_output, ht', Bool.false_eq_true,
      not_false_iff, if_pos]
    cases hs : m.active_scene with
    | none => exact List.length_replicate _ _
    | some scene => exact scene_output_length _

/-- C2 counterexample: with configured LED count 10 and an active scene
whose current effect has `led_count = 7`, the WAITING phase of an active
transition emits a frame of length 10, not 7. -/
theorem C2_counterexample :
    (c2Mgr.get_led_output).1.length = 10 ∧
    (c2Mgr.active_scene).map Scene.get_current_effect =
      some (some c2Eff) ∧
    c2Eff.led_count = 7 ∧ (10 : ℕ) ≠ 7 := by
  decide

/-! ### Claim C1: when transition machinery writes the scene selectors -/

theorem active_scene_set_pattern_transition (m : SceneManager)
    (t : PatternTransition) :
    ({ m with pattern_transition := t } : SceneManager).active_scene =
      m.active_scene := rfl

theorem pattern_transition_set_active_scene (m : SceneManager)
    (f : Scene → Scene) :
    (m.set_active_scene f).pattern_transition = m.pattern_transition := by
  unfold SceneManager.set_active_scene
  cases m.active_scene_id <;> rfl

theorem scenes_set_pattern_transition (m : SceneManager)
    (t : PatternTransition) :
    ({ m with pattern_transition := t } : SceneManager).scenes =
      m.scenes := rfl

theorem complete_pattern_transition_spec (m : SceneManager) (scene : Scene)
    (hs : m.active_scene = some scene) :
    (m.complete_pattern_transition).active_scene =
      some { scene with
        current_effect_id := m.pattern_transition.to_effect_id
        current_palette := m.pattern_transition.to_palette_id } ∧
    (m.complete_pattern_transition).pattern_transition.phase =
      TransitionPhase.completed ∧
    (m.complete_pattern_transition).pattern_transition.is_active = false := by
  unfold SceneManager.complete_pattern_transition
  rw [hs]
  refine ⟨?_, rfl, rfl⟩
  rw [active_scene_set_pattern_transition, active_scene_set_active_scene,
    hs]
  rfl

/-- C1 (amended): the scene's `current_effect_id`/`current_palette` are
committed to `to_*` by `_update_pattern_transition` exactly when the
FADE_IN phase elapses (entering COMPLETED) — BUT `get_led_output` also
overwrites both fields before completion: with `to_*` during FADE_IN and
with `from_*` during FADE_OUT.  Only the WAITING phase leaves the manager
untouched. -/
theorem C1_transition_commit (m : SceneManager) (now : ℚ) (scene : Scene)
    (hs : m.active_scene = some scene) :
    ((m.update_pattern_transition now).scenes ≠ m.scenes →
      (m.update_pattern_transition now).pattern_transition.phase =
        TransitionPhase.completed ∧
      (m.update_pattern_transition now).pattern_transition.is_active =
        false ∧
      (m.update_pattern_transition now).active_scene =
        some { scene with
          current_effect_id := m.pattern_transition.to_effect_id
          current_palette := m.pattern_transition.to_palette_id }) ∧
    (m.pattern_transition.is_active = true →
      m.pattern_transition.phase = TransitionPhase.fade_in →
      (now - m.pattern_transition.phase_start_time) * 1000 ≥
        (m.pattern_transition.fade_in_ms : ℚ) →
      (m.update_pattern_transition now).active_scene =
        some { scene with
          current_effect_id := m.pattern_transition.to_effect_id
          current_palette := m.pattern_transition.to_palette_id } ∧
      (m.update_pattern_transition now).pattern_transition.phase =
        TransitionPhase.completed) ∧
    (m.pattern_transition.is_active = true →
      m.pattern_transition.phase = TransitionPhase.waiting →
      (m.get_led_output).2 = m) ∧
    (m.pattern_transition.is_active = true →
      m.pattern_transition.phase = TransitionPhase.fade_in →
      (m.get_led_output).2.active_scene =
        some { scene with
          current_effect_id := m.pattern_transition.to_effect_id
          current_palette := m.pattern_transition.to_palette_id } ∧
      (m.get_led_output).2.pattern_transition = m.pattern_transition) ∧
    (m.pattern_transition.is_active = true →
      m.pattern_transition.phase = TransitionPhase.fade_out →
      (m.get_led_output).2.active_scene =
        some { scene with
          current_effect_id := m.pattern_transition.from_effect_id
          current_palette := m.pattern_transition.from_palette_id }) := by
  refine ⟨?_, ?_, ?_, ?_, ?_⟩
  · intro hne
    simp only [SceneManager.update_pattern_transition] at hne ⊢
    by_cases ha : m.pattern_transition.is_active
    · rw [if_neg (by simp [ha])] at hne ⊢
      cases hp : m.pattern_transition.phase <;> rw [hp] at hne <;>
        simp only at hne ⊢
      · split_ifs at hne ⊢ <;>
          exact absurd rfl hne
      · split_ifs at hne ⊢ <;>
          exact absurd rfl hne
      · split_ifs at hne ⊢ with hel
        · have h := complete_pattern_transition_spec m scene hs
          exact ⟨h.2.1, h.2.2, h.1⟩
        · exact absurd rfl hne
      · exact absurd rfl hne
    · rw [if_pos (by simp [ha])] at hne ⊢
      exact absurd rfl hne
  · intro ha hp hel
    simp only [SceneManager.update_pattern_transition]
    rw [if_neg (by simp [ha]), hp]
    simp only
    rw [if_pos hel]
    have h := complete_pattern_transition_spec m scene hs
    exact ⟨h.1, h.2.1⟩
  · intro ha hp
    simp only [SceneManager.get_led_output]
    rw [if_neg (by simp [ha])]
    simp only [SceneManager.get_transition_led_output]
    rw [hs, hp]
  · intro ha hp
    simp only [SceneManager.get_led_output]
    rw [if_neg (by simp [ha])]
    simp only [SceneManager.get_transition_led_output]
    rw [hs, hp]
    simp only
    constructor
    · rw [active_scene_set_active_scene, hs]
      rfl
    · rw [pattern_transition_set_active_scene]
  · intro ha hp
    simp only [SceneManager.get_led_output]
    rw [if_neg (by simp [ha])]
    simp only [SceneManager.get_transition_led_output]
    rw [hs, hp]
    simp only
    rw [active_scene_set_active_scene, hs]
    rfl

/-- C1 witness: in `c1Mgr` (FADE_IN toward effect 2 / palette "B"),
`get_led_output` already writes the `to_*` ids into the scene while the
transition is still in FADE_IN. -/
theorem C1_witness :
    (c1Mgr.get_led_output).2.active_scene =
      some { c1Scene with current_effect_id := 2, current_palette := "B" } ∧
    (c1Mgr.get_led_output).2.pattern_transition =
      c1Mgr.pattern_transition :=
  (C1_transition_commit c1Mgr 1 c1Scene (by decide)).2.2.2.1 rfl rfl

/-- C1 counterexample: during FADE_IN (before COMPLETED), `get_led_output`
changes the active scene's `current_effect_id` from 1 to the transition's
`to_effect_id` 2 while the phase is still FADE_IN — the claim says neither
field is modified in that phase. -/
theorem C1_counterexample :
    c1Mgr.pattern_transition.phase = TransitionPhase.fade_in ∧
    (c1Mgr.active_scene).map Scene.current_effect_id = some 1 ∧
    ((c1Mgr.get_led_output).2.active_scene).map Scene.current_effect_id =
      some 2 ∧
    (c1Mgr.get_led_output).2.pattern_transition.phase =
      TransitionPhase.fade_in := by
  decide
